import Mathlib

/-!
Verification of the VerusOS safety-detection core against its design
specification.

The development shallowly embeds the analytical core of the repository:

* `app/core/detection.py` — `CrisisDetector` (pattern library, feature
  extractor, category scorer, context multipliers, tier assignment);
* `app/services/risk_stratification.py` — `RiskStratificationEngine`;
* `app/services/temporal_tracking.py` — `TemporalTrackingService`;
* `app/services/boundary_engine.py` — `BoundaryEngine`.

Python floats are modelled as exact rationals (`ℚ`); Python `int(x)` for
nonnegative `x` is `⌊x⌋`; Python `round` is round-half-to-even.  Regular
expressions are embedded by an executable matcher for exactly the
constructs the pattern tables use: literal characters (case-insensitive,
matching `re.IGNORECASE`), alternation groups, `.*`, `.?` and the
word-boundary assertion `\b`.
-/

/-! ## Regular-expression engine -/

/-- Word characters for the `\b` assertion: `[A-Za-z0-9_]`. -/
def isWordChar (c : Char) : Bool := c.isAlphanum || c = '_'

/-- The newline character, which `.` does not match (no `re.DOTALL`). -/
def nlChar : Char := Char.ofNat 10

/-- The apostrophe character (several source patterns and word lists
contain one). -/
def apos : Char := Char.ofNat 39

/-- A one-character string holding an apostrophe. -/
def aposS : String := String.mk [apos]

/-- Is there a word boundary between the previous character (`none` at the
start of the string) and the next character (`none` at the end)? -/
def wordBoundary (prev next : Option Char) : Bool :=
  match prev, next with
  | none, none => false
  | none, some c => isWordChar c
  | some c, none => isWordChar c
  | some a, some b => isWordChar a != isWordChar b

/-- Abstract syntax of the regular-expression fragment used by the
pattern tables: empty string, literal character, `.*`, `.?`, `\b`,
concatenation and alternation. -/
inductive Regex where
  | eps : Regex
  | ch (c : Char) : Regex
  | dotstar : Regex
  | dotopt : Regex
  | wb : Regex
  | cat (r1 r2 : Regex) : Regex
  | alt (r1 r2 : Regex) : Regex

/-- All ways `.*` can consume a prefix of `rest` (any number of
non-newline characters), as `(last consumed character, remaining suffix)`
pairs. -/
def dsMatches : Option Char → List Char → List (Option Char × List Char)
  | prev, [] => [(prev, [])]
  | prev, h :: t => (prev, h :: t) :: (if h = nlChar then [] else dsMatches (some h) t)

/-- All ways a regex can consume a prefix of `rest`, given the character
just before `rest` (`prev`, `none` at string start).  Returns the list of
`(last consumed character, remaining suffix)` outcomes.  Literal
characters compare case-insensitively (the source compiles every pattern
with `re.IGNORECASE` and all pattern literals are lower case). -/
def matchPrefix : Regex → Option Char → List Char → List (Option Char × List Char)
  | .eps, prev, rest => [(prev, rest)]
  | .ch _, _, [] => []
  | .ch c, _, h :: t => if h.toLower = c then [(some h, t)] else []
  | .dotopt, prev, [] => [(prev, [])]
  | .dotopt, prev, h :: t =>
      (prev, h :: t) :: (if h = nlChar then [] else [(some h, t)])
  | .dotstar, prev, rest => dsMatches prev rest
  | .wb, prev, rest => if wordBoundary prev rest.head? then [(prev, rest)] else []
  | .alt r1 r2, prev, rest => matchPrefix r1 prev rest ++ matchPrefix r2 prev rest
  | .cat r1 r2, prev, rest =>
      (matchPrefix r1 prev rest).flatMap fun pr => matchPrefix r2 pr.1 pr.2

/-- Unanchored search from successive start positions, tracking the
character before the current position. -/
def searchFrom (r : Regex) : Option Char → List Char → Bool
  | prev, [] => !(matchPrefix r prev []).isEmpty
  | prev, h :: t => !(matchPrefix r prev (h :: t)).isEmpty || searchFrom r (some h) t

/-- Embedding of Python `pattern.search(msg)` (as a Boolean): does the
pattern match anywhere in the string? -/
def rsearch (r : Regex) (msg : String) : Bool := searchFrom r none msg.toList

/-- Literal string as a regex (concatenation of its characters). -/
def lit (s : String) : Regex := (s.toList.map Regex.ch).foldr Regex.cat Regex.eps

/-- Alternation of a list of regexes, right-nested as in `(a|b|c)`. -/
def altList : List Regex → Regex
  | [] => Regex.eps
  | [r] => r
  | r :: rs => Regex.alt r (altList rs)

/-- Alternation group of literal strings, e.g. `(kill|end)`. -/
def alts (l : List String) : Regex := altList (l.map lit)

/-- Concatenation of a list of regexes. -/
def rcat (l : List Regex) : Regex := l.foldr Regex.cat Regex.eps

/-- Shorthand for the word-boundary assertion `\b`. -/
def bdy : Regex := Regex.wb

/-- Shorthand for `.*`. -/
def anySeq : Regex := Regex.dotstar

/-- Shorthand for `.?`. -/
def anyOpt : Regex := Regex.dotopt

/-- A whole pattern of the frequent shape `\b<literal>\b`. -/
def wlit (s : String) : Regex := rcat [bdy, lit s, bdy]

/-! ## Pattern library (`CrisisDetector.__init__`)

Each entry transcribes, in order, one raw-string pattern of the
corresponding Python list.  Apostrophes (`\'` in the source) are spliced
in via `aposS`. -/

/-- `self.crisis_patterns` (compiled `crisis_keywords`). -/
def crisis_patterns : List Regex := [
  -- Explicit suicidal ideation
  rcat [bdy, alts ["kill", "end"], anySeq, alts ["myself", "my life"], bdy],
  rcat [bdy, alts ["want", "going", "gonna"], anySeq, alts ["die", "suicide", "dead"], bdy],
  rcat [bdy, lit "suicid", alts ["e", "al"], bdy],
  wlit "kill myself",
  wlit "end my life",
  wlit "end it all",
  wlit "want to die",
  wlit "end this",
  wlit "ending it",
  -- Self-harm
  rcat [bdy, alts ["cut", "hurt", "harm"], anySeq, alts ["myself", "self"], bdy],
  rcat [bdy, lit "self", anyOpt, lit "harm", bdy],
  wlit "hurt myself",
  wlit "cut myself",
  -- Hopelessness - expanded
  rcat [bdy, alts ["no", "not"], anySeq, alts ["worth", "point"], anySeq,
    alts ["living", "anymore"], bdy],
  rcat [bdy, alts ["can" ++ aposS ++ "t", "cannot"], anySeq,
    alts ["go on", "take it", "do this"], bdy],
  rcat [bdy, lit "better off ", alts ["dead", "without me"], bdy],
  wlit "no point",
  wlit "no reason to live",
  wlit "worthless",
  wlit "hopeless",
  rcat [bdy, alts ["nobody", "no one"], anySeq, alts ["cares", "wants", "loves"], bdy],
  rcat [bdy, lit "everyone", anySeq, alts ["better off", "hate"], bdy],
  wlit "want to disappear",
  rcat [bdy, lit ("don" ++ aposS ++ "t want to "), alts ["live", "exist", "be here"], bdy],
  wlit "tired of living",
  wlit "give up",
  wlit ("can" ++ aposS ++ "t go on"),
  wlit "no future",
  wlit "no hope",
  wlit ("don" ++ aposS ++ "t see a future"),
  wlit ("care if i" ++ aposS ++ "m gone"),
  wlit "want it to stop",
  rcat [bdy, lit "pain", anySeq, lit "unbearable", bdy],
  wlit "unbearable",
  wlit ("can" ++ aposS ++ "t take"),
  -- Planning language
  rcat [bdy, alts ["how to", "ways to"], anySeq, alts ["kill", "die", "suicide", "end"], bdy],
  rcat [bdy, alts ["pills", "gun", "rope", "bridge", "knife"], bdy, anySeq, bdy,
    alts ["die", "suicide", "end", "myself"], bdy],
  rcat [bdy, lit "have a ", alts ["gun", "knife", "pills"], bdy],
  rcat [bdy, lit "planning", anySeq, alts ["end", "die", "suicide", "kill"], bdy],
  wlit "prepared everything",
  rcat [bdy, lit "wrote", anySeq, alts ["note", "letter", "goodbye"], bdy],
  rcat [bdy, lit "pills", bdy, anySeq, bdy, alts ["easy", "easiest", "way"], bdy],
  wlit "thought about ending",
  wlit "been planning",
  -- Goodbye language
  rcat [bdy, lit "goodbye", anySeq, alts ["world", "everyone", "all"], bdy],
  wlit "final goodbye",
  rcat [bdy, lit "this is ", alts ["the end", "it", "goodbye"], bdy]]

/-- `self.grooming_patterns` (compiled `grooming_keywords`). -/
def grooming_patterns : List Regex := [
  -- Age/identity questions
  rcat [bdy, alts ["how old", "what age", "age"], bdy, anySeq, bdy,
    alts ["you", "are", "r u"], bdy],
  rcat [bdy, alts ["what", "which"], anySeq, alts ["school", "grade"], bdy],
  rcat [bdy, lit "where", anySeq, alts ["live", "from", "located", "stay"], bdy],
  rcat [bdy, lit "what", anySeq, alts ["address", "location"], bdy],
  rcat [bdy, lit "tell me", anySeq, alts ["name", "phone", "where", "about yourself"], bdy],
  -- Photo requests
  rcat [bdy, lit "send", anySeq, alts ["picture", "photo", "pic", "selfie", "image"], bdy],
  rcat [bdy, lit "show me", anySeq, alts ["picture", "photo", "yourself", "you"], bdy],
  rcat [bdy, alts ["can i", "let me", "want to"], anySeq, alts ["see", "have"], anySeq,
    alts ["photo", "picture", "you"], bdy],
  wlit "pic of you",
  wlit "selfie",
  -- Meetup attempts
  rcat [bdy, lit "meet", anySeq, alts ["up", "irl", "in person", "real life", "sometime"], bdy],
  rcat [bdy, alts ["come", "go"], anySeq, alts ["meet", "see"], anySeq, alts ["me", "you"], bdy],
  wlit "pick you up",
  rcat [bdy, lit "my ", alts ["car", "place", "house", "apartment"], bdy],
  wlit "come to my",
  wlit "come over",
  rcat [bdy, lit "hang out", anySeq, alts ["alone", "private"], bdy],
  -- Secrecy/manipulation
  rcat [bdy, Regex.alt (lit ("don" ++ aposS ++ "t tell"))
    (rcat [lit "keep", anySeq, alts ["secret", "between", "private"]]), bdy],
  rcat [bdy, alts ["our", "this"], anySeq, alts ["secret", "special", "private"], bdy],
  rcat [bdy, lit "nobody", anySeq, alts ["needs to", "has to", "should"], lit " know", bdy],
  wlit "just between us",
  wlit "our little secret",
  -- Flattery/grooming compliments
  rcat [bdy, lit ("you" ++ aposS ++ "re"), anySeq,
    alts ["mature", "pretty", "hot", "sexy", "beautiful", "cute"], bdy],
  rcat [bdy, lit "you look ", alts ["older", "mature", "hot", "sexy"], bdy],
  rcat [bdy, lit "so ", alts ["mature", "pretty", "beautiful", "hot"], bdy],
  rcat [bdy, lit "age", anySeq, alts ["just a number", "doesn" ++ aposS ++ "t matter"], bdy],
  rcat [bdy, alts ["really", "so"], lit " mature", bdy],
  wlit "mature for your age",
  rcat [bdy, lit "seem", anySeq, alts ["mature", "older"], bdy]]

/-- `self.violence_patterns` (compiled `violence_keywords`). -/
def violence_patterns : List Regex := [
  -- Direct threats
  rcat [bdy, alts ["kill", "hurt", "attack", "harm"], anySeq,
    alts ["them", "him", "her", "someone", "people", "you"], bdy],
  rcat [bdy, lit ("i" ++ aposS ++ "m "), alts ["going to", "gonna", "will"], anySeq,
    alts ["hurt", "kill", "attack"], bdy],
  rcat [bdy, lit "going to ", alts ["hurt", "kill", "attack", "harm"], bdy],
  rcat [bdy, lit "want to ", alts ["hurt", "kill", "attack", "harm"], anySeq,
    alts ["them", "him", "her", "someone"], bdy],
  rcat [bdy, lit "they", anySeq, alts ["deserve", "should", "going to", "will"], anySeq,
    lit "die", bdy],
  rcat [bdy, alts ["make", "watch"], anySeq, alts ["them", "him", "her"], anySeq,
    alts ["die", "suffer", "pay"], bdy],
  -- Weapons + intent
  rcat [bdy, alts ["gun", "knife", "weapon", "bomb"], bdy, anySeq, bdy,
    alts ["kill", "hurt", "use", "shoot", "stab"], bdy],
  rcat [bdy, alts ["shoot", "stab", "blow up", "attack"], bdy],
  rcat [bdy, lit "have a ", alts ["gun", "knife", "weapon"], bdy],
  rcat [bdy, lit "bring a ", alts ["gun", "knife", "weapon"], bdy],
  -- Mass violence
  rcat [bdy, lit "shoot", anySeq, alts ["up", "school", "place", "everyone", "them all"], bdy],
  rcat [bdy, lit "mass", anySeq, alts ["shooting", "killing", "murder"], bdy],
  rcat [bdy, alts ["kill", "hurt", "attack"], anySeq,
    alts ["everyone", "them all", "all of them"], bdy],
  rcat [bdy, lit "make them ", alts ["pay", "suffer", "regret"], bdy],
  rcat [bdy, lit ("they" ++ aposS ++ "ll"), anySeq, alts ["pay", "regret", "sorry"], bdy],
  -- Specific/planned threats
  rcat [bdy, lit "i know where", anySeq, alts ["live", "work", "go", "are"], bdy],
  rcat [bdy, lit "i have a ", alts ["list", "plan", "target"], bdy],
  rcat [bdy, lit "planning", anySeq, alts ["attack", "hurt", "kill", "shoot"], bdy],
  rcat [bdy, lit ("they won" ++ aposS ++ "t see"), anySeq, alts ["coming", "it"], bdy],
  rcat [bdy, lit "preparing", anySeq, alts ["attack", "weapons"], bdy],
  wlit "planned this",
  wlit "epic destruction"]

/-! ## Feature extraction and scoring (`CrisisDetector`) -/

/-- Embedding of Python `str.lower()`. -/
def strToLower (s : String) : String := String.mk (s.toList.map Char.toLower)

/-- Helper for `pySplit`: the accumulator holds the current word
reversed. -/
def pySplitAux : List Char → List Char → List (List Char)
  | acc, [] => if acc = [] then [] else [acc.reverse]
  | acc, c :: cs =>
    if c.isWhitespace then
      if acc = [] then pySplitAux [] cs else acc.reverse :: pySplitAux [] cs
    else pySplitAux (c :: acc) cs

/-- Embedding of Python `str.split()`: split on whitespace runs, dropping
empty pieces. -/
def pySplit (s : String) : List String := (pySplitAux [] s.toList).map String.mk

/-- Python substring test `needle in hay` on character lists. -/
def listInfix (needle hay : List Char) : Bool :=
  match hay with
  | [] => needle.isEmpty
  | _ :: t => needle.isPrefixOf hay || listInfix needle t

/-- Python substring test `needle in hay` on strings. -/
def strIn (needle hay : String) : Bool := listInfix needle.toList hay.toList

/-- The fixed-shape feature record of `_extract_features` (the source
stores the Booleans as `1.0`/`0.0` floats; they are only ever used for
truthiness). -/
structure Features where
  first_person_count : ℕ
  negative_count : ℕ
  future_count : ℕ
  urgency_count : ℕ
  question_count : ℕ
  imperative_count : ℕ
  word_count : ℕ
  has_first_person : Bool
  has_negative : Bool
  has_urgency : Bool
deriving Repr, DecidableEq

/-- `sum(1 for w in words if w in lexicon)`. -/
def countIn (words lexicon : List String) : ℕ :=
  (words.filter (fun w => lexicon.contains w)).length

/-- `CrisisDetector._extract_features`. -/
def extract_features (msg : String) : Features :=
  let words := pySplit (strToLower msg)
  let count := if words.length = 0 then 1 else words.length  -- len(words) or 1
  let fp_cnt := countIn words
    ["i", "me", "my", "myself", "mine", "i" ++ aposS ++ "m", "i" ++ aposS ++ "ve",
     "i" ++ aposS ++ "ll"]
  let neg_cnt := countIn words
    ["no", "not", "never", "nothing", "nobody", "alone", "empty", "hopeless", "worthless",
     "hate", "can" ++ aposS ++ "t", "cannot"]
  let future_cnt := countIn words ["will", "going", "gonna", "tomorrow", "tonight",
    "planning", "plan"]
  let urgency_cnt := countIn words ["now", "tonight", "today", "immediately", "right now"]
  let q_cnt := countIn words ["what", "where", "when", "how", "who", "why"]
  let imp_cnt := countIn words ["send", "show", "tell", "come", "meet", "give", "let"]
  { first_person_count := fp_cnt
    negative_count := neg_cnt
    future_count := future_cnt
    urgency_count := urgency_cnt
    question_count := q_cnt
    imperative_count := imp_cnt
    word_count := count
    has_first_person := fp_cnt > 0
    has_negative := neg_cnt > 0
    has_urgency := urgency_cnt > 0 }

/-- Context dictionary of `CrisisDetector.detect` /
`RiskStratificationEngine.calculate_risk_score`; absent keys are the
`dict.get` defaults. -/
structure Ctx where
  time_of_day : Option String := none
  session_count_today : ℕ := 0
  user_age : Option Int := none
deriving Repr, DecidableEq

/-- `CrisisDetector._count_matches`: `sum(1 for p in patterns if
p.search(msg))` — each pattern contributes at most 1. -/
def count_matches (msg : String) (patterns : List Regex) : ℕ :=
  (patterns.map (fun p => if rsearch p msg then 1 else 0)).sum

/-- The per-category base score of `CrisisDetector.detect` stage 2:
`min(0.7 + (matches - 1) * 0.1, 1.0) if matches else 0.0`. -/
def category_base (m : ℕ) : ℚ :=
  if m = 0 then 0 else min (7/10 + ((m - 1 : ℕ) : ℚ) * (1/10)) 1

/-- `CrisisDetector._adjust_crisis_score`. -/
def adjust_crisis_score (base : ℚ) (f : Features) : ℚ :=
  if base = 0 then 0
  else min (base + (if f.has_first_person then 1/20 else 0)
    + (if f.has_negative then 1/20 else 0)
    + (if f.has_urgency then 1/10 else 0)) 1

/-- `CrisisDetector._adjust_grooming_score`. -/
def adjust_grooming_score (base : ℚ) (f : Features) : ℚ :=
  if base = 0 then 0
  else min (base + (if f.question_count > 1 then 1/20 else 0)
    + (if f.imperative_count > 1 then 1/20 else 0)) 1

/-- `CrisisDetector._adjust_violence_score`. -/
def adjust_violence_score (base : ℚ) (f : Features) : ℚ :=
  if base = 0 then 0
  else min (base + (if f.future_count > 0 then 1/20 else 0)
    + (if f.has_urgency then 1/10 else 0)) 1

/-- The hour markers the primary detector greps for inside
`time_of_day`. -/
def lateNightMarkers : List String :=
  ["2am", "3am", "4am", "5am", "2:00", "3:00", "4:00", "5:00"]

/-- `CrisisDetector._calc_multipliers`.  `msg` and `f` are taken but, as
in the source, unused.  The source's initial `if not ctx: return {}`
shortcut is omitted: with every key at its `get` default each test below
already fails, so the result for an empty dict is `[]` either way.
`if age and age < 18` uses Python truthiness, so `age = 0` is skipped but
any nonzero age below 18 (including negative ones) triggers. -/
def calc_multipliers (msg : String) (ctx : Ctx) (f : Features) : List (String × ℚ) :=
  let time := strToLower (ctx.time_of_day.getD "")
  (if lateNightMarkers.any (fun h => strIn h time)
    then [("late_night", (13/10 : ℚ))] else []) ++
  (if ctx.session_count_today > 20 then [("excessive_usage", (13/10 : ℚ))]
    else if ctx.session_count_today > 10 then [("high_usage", (6/5 : ℚ))] else []) ++
  (match ctx.user_age with
   | none => []
   | some a => if a ≠ 0 ∧ a < 18 then [("minor_user", (13/10 : ℚ))] else [])

/-- `CrisisDetector._apply_multipliers`: multiply the base by every
recorded factor, then clamp above at 1. -/
def apply_multipliers (base : ℚ) (mult : List (String × ℚ)) : ℚ :=
  min (mult.foldl (fun s p => s * p.2) base) 1

/-- Python `int(x)`: truncation toward zero (equal to `⌊x⌋` for the
nonnegative values it is applied to here). -/
def pyInt (q : ℚ) : ℤ := if 0 ≤ q then ⌊q⌋ else -⌊-q⌋

/-- `CrisisDetector._assign_tier`: `(risk_tier, recommended_action,
response_deadline_hours)`. -/
def assign_tier (score : ℤ) : String × String × ℕ :=
  if score ≥ 90 then ("CRITICAL", "Immediate intervention required", 1)
  else if score ≥ 70 then ("HIGH", "Urgent review required", 4)
  else if score ≥ 50 then ("ELEVATED", "Review within 24 hours", 24)
  else ("BASELINE", "Standard monitoring", 168)

/-- One matched-keyword label per matching pattern of a category, in
pattern order.  The source labels each hit with the first 30 characters
of the pattern's raw text (`f"crisis:{kw[:30]}"`); here the label carries
the pattern's index instead.  No property below depends on the label
text, only on how many labels are produced. -/
def labelled (tag : String) (pats : List Regex) (msg : String) : List String :=
  ((pats.zip (List.range pats.length)).filter (fun pi => rsearch pi.1 msg)).map
    (fun pi => tag ++ ":" ++ toString pi.2)

/-- `CrisisDetector._get_keywords` (capped at 10). -/
def get_keywords (msg : String) : List String :=
  (labelled "crisis" crisis_patterns msg ++ labelled "grooming" grooming_patterns msg ++
    labelled "violence" violence_patterns msg).take 10

/-- The `DetectionResult` dataclass.  `features` is `none` for the
stage-1 safe result (the source puts an empty dict there). -/
structure DetectionResult where
  crisis_detected : Bool
  grooming_detected : Bool
  violence_detected : Bool
  confidence_score : ℚ
  risk_score : ℤ
  risk_tier : String
  stage : ℕ
  categories : List String
  keywords_matched : List String
  features : Option Features
  context_multipliers : List (String × ℚ)
  recommended_action : String
  response_deadline_hours : ℕ
deriving Repr, DecidableEq

/-- `CrisisDetector._safe_result`. -/
def safe_result : DetectionResult :=
  { crisis_detected := false
    grooming_detected := false
    violence_detected := false
    confidence_score := 0
    risk_score := 0
    risk_tier := "BASELINE"
    stage := 1
    categories := []
    keywords_matched := []
    features := none
    context_multipliers := []
    recommended_action := "Continue normal conversation"
    response_deadline_hours := 168 }

/-- Stages 2+ of `CrisisDetector.detect`, parameterised by the three
match counts computed in stage 1 (the source computes them inline; the
factoring lets monotonicity in a single count be stated). -/
def detect_from_counts (msg : String) (ctx : Ctx)
    (crisis_matches grooming_matches violence_matches : ℕ) : DetectionResult :=
  if crisis_matches = 0 ∧ grooming_matches = 0 ∧ violence_matches = 0 then safe_result
  else
    let features := extract_features msg
    let crisis_score := adjust_crisis_score (category_base crisis_matches) features
    let grooming_score := adjust_grooming_score (category_base grooming_matches) features
    let violence_score := adjust_violence_score (category_base violence_matches) features
    let base_score := max (max crisis_score grooming_score) violence_score
    let multipliers := calc_multipliers msg ctx features
    let final_score := apply_multipliers base_score multipliers
    let risk_score := pyInt (final_score * 100)
    let tier := assign_tier risk_score
    { crisis_detected := crisis_score ≥ 1/2
      grooming_detected := grooming_score ≥ 1/2
      violence_detected := violence_score ≥ 1/2
      confidence_score := final_score
      risk_score := risk_score
      risk_tier := tier.1
      stage := 2
      categories :=
        (if crisis_score ≥ 1/2 then ["crisis"] else []) ++
        (if grooming_score ≥ 1/2 then ["grooming"] else []) ++
        (if violence_score ≥ 1/2 then ["violence"] else [])
      keywords_matched := get_keywords msg
      features := some features
      context_multipliers := multipliers
      recommended_action := tier.2.1
      response_deadline_hours := tier.2.2 }

/-- `CrisisDetector.detect` — the spec's `classify`. -/
def detect (msg : String) (ctx : Ctx) : DetectionResult :=
  detect_from_counts msg ctx (count_matches msg crisis_patterns)
    (count_matches msg grooming_patterns) (count_matches msg violence_patterns)

/-! ## Risk stratification (`RiskStratificationEngine`) -/

/-- Python `round`: round half to even. -/
def pyRound (q : ℚ) : ℤ :=
  if q - ⌊q⌋ < 1/2 then ⌊q⌋
  else if 1/2 < q - ⌊q⌋ then ⌊q⌋ + 1
  else if 2 ∣ ⌊q⌋ then ⌊q⌋ else ⌊q⌋ + 1

/-- `RiskStratificationEngine.LATE_NIGHT_HOURS`. -/
def LATE_NIGHT_HOURS : List String := ["12am", "1am", "2am", "3am", "4am", "5am", "6am"]

/-- The dictionary `RiskStratificationEngine._assign_tier` returns. -/
structure TierInfo where
  tier : ℕ
  label : String
  deadline_hours : ℕ
  prompt_category : String
  suggested_message : Option String
deriving Repr, DecidableEq

/-- `RiskStratificationEngine._assign_tier`. -/
def strat_assign_tier (score : ℤ) : TierInfo :=
  if score ≥ 90 then
    ⟨1, "IMMEDIATE - Imminent Crisis", 1, "crisis_resources_prominent",
      some ("We" ++ aposS ++
        "re concerned about your safety. Please reach out: 988 Suicide & Crisis Lifeline")⟩
  else if score ≥ 70 then
    ⟨2, "URGENT - High Risk", 4, "safety_check_with_resources",
      some ("It sounds like you" ++ aposS ++
        "re going through a difficult time. Here are some resources that might help.")⟩
  else if score ≥ 50 then
    ⟨3, "ELEVATED - Moderate Concern", 24, "wellness_check",
      some "Checking in - how are you doing today?"⟩
  else
    ⟨4, "BASELINE - Low Risk", 72, "continue_normal", none⟩

/-- The dictionary `calculate_risk_score` returns. -/
structure StratResult where
  base_score : ℚ
  multiplier : ℚ
  multiplier_details : List (String × ℚ)
  final_score : ℤ
  tier : ℕ
  tier_label : String
  deadline_hours : ℕ
  recommended_prompt_category : String
  suggested_message : Option String
deriving Repr, DecidableEq

/-- `RiskStratificationEngine.calculate_risk_score` — the spec's
`stratify`.  The three multiplier factors are accumulated into the
running product and detail list in source order. -/
def calculate_risk_score (base_detection_score : ℚ) (context : Ctx)
    (previous_alerts_14d : ℕ) : StratResult :=
  let base := base_detection_score * 100
  let time_of_day := context.time_of_day.getD ""
  let lateB : Bool := (!time_of_day.toList.isEmpty) && LATE_NIGHT_HOURS.contains (strToLower time_of_day)
  let heavyB : Bool := context.session_count_today ≥ 3
  let repeatB : Bool := previous_alerts_14d ≥ 2
  let multiplier : ℚ := 1 * (if lateB then 23/20 else 1) * (if heavyB then 11/10 else 1) *
    (if repeatB then 6/5 else 1)
  let multiplier_details :=
    (if lateB then [("late_night", (23/20 : ℚ))] else []) ++
    (if heavyB then [("heavy_usage", (11/10 : ℚ))] else []) ++
    (if repeatB then [("repeat_alerts", (6/5 : ℚ))] else [])
  let final_score := pyRound (min (base * multiplier) 100)
  let t := strat_assign_tier final_score
  { base_score := base
    multiplier := multiplier
    multiplier_details := multiplier_details
    final_score := final_score
    tier := t.tier
    tier_label := t.label
    deadline_hours := t.deadline_hours
    recommended_prompt_category := t.prompt_category
    suggested_message := t.suggested_message }

/-! ## Temporal tracking (`TemporalTrackingService`)

The external record store is modelled as a list of `Detection` rows; the
two SQL queries become filters over it.  Timestamps are modelled in
hours, so `now - timedelta(hours=72)` is `now - 72` and
`now - timedelta(days=14)` is `now - 14 * 24`. -/

/-- A persisted `Detection` row (the columns the temporal tracker
reads: `user_id_hash`, `timestamp`, `risk_score`, `risk_tier` — the
latter two are `Integer` columns). -/
structure DetRow where
  user_id_hash : String
  timestamp : ℤ
  risk_score : ℤ
  risk_tier : ℤ
deriving Repr, DecidableEq

/-- The 72-hour query of `check_temporal_patterns`: detections of the
user with `timestamp > now - 72h` and `risk_tier <= 2`, ordered by
ascending timestamp. -/
def alerts72h (db : List DetRow) (user : String) (now : ℤ) : List DetRow :=
  (db.filter (fun d =>
    d.user_id_hash = user ∧ d.timestamp > now - 72 ∧ d.risk_tier ≤ 2)).insertionSort
    (fun a b => a.timestamp ≤ b.timestamp)

/-- The 14-day count query of `check_temporal_patterns`. -/
def alerts14dCount (db : List DetRow) (user : String) (now : ℤ) : ℕ :=
  (db.filter (fun d => d.user_id_hash = user ∧ d.timestamp > now - 14 * 24)).length

/-- `TemporalTrackingService._calculate_trajectory`. -/
def calculate_trajectory (alerts : List DetRow) : String :=
  if alerts.length < 2 then "insufficient_data"
  else
    let scores := alerts.map (fun a => a.risk_score)
    if scores.length ≥ 2 then
      let h := scores.length / 2
      let first_half_avg : ℚ := ((scores.take h).sum : ℚ) / (max h 1 : ℕ)
      let second_half_avg : ℚ := ((scores.drop h).sum : ℚ) / (max (scores.length - h) 1 : ℕ)
      if second_half_avg > first_half_avg * (11/10) then "escalating"
      else if second_half_avg < first_half_avg * (9/10) then "de-escalating"
      else "stable"
    else "stable"

/-- The dictionary `check_temporal_patterns` returns. -/
structure TemporalResult where
  alerts_72h : ℕ
  alerts_14d : ℕ
  pattern : String
  concern_level : String
  trajectory : String
deriving Repr, DecidableEq

/-- `TemporalTrackingService.check_temporal_patterns` — the spec's
`temporalSignal` (sans the human-readable `note` field). -/
def check_temporal_patterns (db : List DetRow) (user : String) (now : ℤ) : TemporalResult :=
  let alerts := alerts72h db user now
  let count14 := alerts14dCount db user now
  if alerts.length ≥ 2 then
    { alerts_72h := alerts.length, alerts_14d := count14, pattern := "repeat_alerts_72h",
      concern_level := "elevated", trajectory := calculate_trajectory alerts }
  else if count14 ≥ 3 then
    { alerts_72h := alerts.length, alerts_14d := count14, pattern := "multiple_alerts_14d",
      concern_level := "monitoring", trajectory := "monitoring" }
  else
    { alerts_72h := alerts.length, alerts_14d := count14, pattern := "isolated_event",
      concern_level := "baseline", trajectory := "stable" }

/-! ## Boundary engine (`BoundaryEngine`) -/

/-- `BoundaryEngine.DELUSION_MARKERS`. -/
def DELUSION_MARKERS : List Regex := [
  rcat [bdy, alts ["hearing voices", "seeing things", "people following"], bdy],
  rcat [bdy, alts ["special powers", "chosen one", "mind reading"], bdy],
  rcat [bdy, alts ["conspiracy", "tracking me", "implanted"], bdy],
  rcat [bdy, alts ["they are watching", "government is", "aliens"], bdy]]

/-- `BoundaryEngine.VALIDATION_PHRASES`. -/
def VALIDATION_PHRASES : List Regex := [
  rcat [bdy, alts ["makes sense", "you" ++ aposS ++ "re right", "i agree"], bdy],
  rcat [bdy, alts ["exactly", "absolutely", "totally understand"], bdy],
  rcat [bdy, alts ["of course", "definitely", "that" ++ aposS ++ "s true"], bdy]]

/-- `BoundaryEngine.ROLE_VIOLATIONS`. -/
def ROLE_VIOLATIONS : List Regex := [
  rcat [bdy, alts ["i am your therapist", "as your doctor"], bdy],
  rcat [bdy, alts ["i can diagnose", "i prescribe"], bdy],
  rcat [bdy, alts ["my professional opinion", "clinical assessment"], bdy],
  rcat [bdy, alts ["as a licensed", "as a certified"], bdy]]

/-- `BoundaryEngine.DUAL_RELATIONSHIP`. -/
def DUAL_RELATIONSHIP : List Regex := [
  rcat [bdy, alts ["meet you", "come over", "my address"], bdy],
  rcat [bdy, alts ["i love you", "we could be together", "date"], bdy],
  rcat [bdy, alts ["in person", "real life", "outside of here"], bdy],
  rcat [bdy, alts ["physical relationship", "romantic"], bdy]]

/-- `BoundaryEngine.MEDICAL_ADVICE`. -/
def MEDICAL_ADVICE : List Regex := [
  rcat [bdy, alts ["stop your medication", "increase your dose"], bdy],
  rcat [bdy, alts ["you don" ++ aposS ++ "t need therapy", "skip therapy"], bdy],
  rcat [bdy, alts ["you have depression", "you have anxiety", "you have bipolar"], bdy],
  rcat [bdy, alts ["take this medication", "try this drug"], bdy]]

/-- `BoundaryEngine.ISOLATION_PATTERNS`. -/
def ISOLATION_PATTERNS : List Regex := [
  rcat [bdy, alts ["they don" ++ aposS ++ "t understand", "you don" ++ aposS ++ "t need them"],
    bdy],
  rcat [bdy, alts ["i" ++ aposS ++ "m the only one", "better without them"], bdy],
  rcat [bdy, alts ["don" ++ aposS ++ "t tell anyone", "keep this between us"], bdy],
  rcat [bdy, alts ["no one else cares", "only i understand"], bdy]]

/-- `BoundaryEngine.SYCOPHANTIC_PATTERNS`. -/
def SYCOPHANTIC_PATTERNS : List Regex := [
  rcat [bdy, alts ["you" ++ aposS ++ "re so special", "you" ++ aposS ++ "re amazing"], bdy],
  rcat [bdy, alts ["only you understand", "you" ++ aposS ++ "re perfect"], bdy],
  rcat [bdy, alts ["i need you", "you complete me"], bdy],
  rcat [bdy, alts ["always here for you", "never leave you"], bdy]]

/-- `BoundaryEngine.DEPENDENCY_MARKERS`. -/
def DEPENDENCY_MARKERS : List Regex := [
  rcat [bdy, alts ["i" ++ aposS ++ "m here for you", "tell me everything"], bdy],
  rcat [bdy, alts ["you can always talk to me", "come to me"], bdy],
  rcat [bdy, alts ["i understand you better", "trust me"], bdy]]

/-- `any(re.search(p, s) for p in pats)`. -/
def anyMatch (pats : List Regex) (s : String) : Bool := pats.any (fun p => rsearch p s)

/-- One prior conversation turn as the boundary engine reads it: only the
`'bot'` entry of the history dict is accessed (`msg.get('bot')`; a
missing key is `none`). -/
structure Turn where
  bot : Option String := none
deriving Repr, DecidableEq

/-- Does this history turn have a truthy (present and nonempty) bot
message matching one of `pats`?  (`if msg.get('bot'): if any(...)`.) -/
def turnHits (pats : List Regex) (t : Turn) : Bool :=
  match t.bot with
  | none => false
  | some b => (!b.toList.isEmpty) && anyMatch pats (strToLower b)

/-- One entry of the `violations` list. -/
structure BViolation where
  vtype : String
  severity : String
  matched_patterns : String
  description : String
deriving Repr, DecidableEq

/-- The `severity_order` dictionary (`.get(x, 0)` for unknown keys). -/
def severity_order (s : String) : ℕ :=
  if s = "CRITICAL" then 4
  else if s = "HIGH" then 3
  else if s = "MEDIUM" then 2
  else if s = "LOW" then 1
  else 0

/-- Python `max(iterable, key=severity_order, default='NONE')`: scan left
to right, replacing the current best only on a strictly greater key. -/
def pyMaxSeverity (l : List String) : String :=
  match l with
  | [] => "NONE"
  | h :: t => t.foldl (fun acc x => if severity_order x > severity_order acc then x else acc) h

/-- The dictionary `check_boundary_violations` returns. -/
structure BoundaryResult where
  violations_detected : Bool
  violation_count : ℕ
  violations : List BViolation
  highest_severity : String
  dependency_markers : List String
deriving Repr, DecidableEq

/-- `BoundaryEngine.check_boundary_violations` — the spec's
`analyzeBoundaries`. -/
def check_boundary_violations (user_msg bot_msg : String) (history : List Turn) :
    BoundaryResult :=
  let user_lower := strToLower user_msg
  let bot_lower := strToLower bot_msg
  let user_has_delusion := anyMatch DELUSION_MARKERS user_lower
  let bot_validates := anyMatch VALIDATION_PHRASES bot_lower
  let isolation_count :=
    ((history.drop (history.length - 10)).filter (turnHits ISOLATION_PATTERNS)).length +
    (if anyMatch ISOLATION_PATTERNS bot_lower then 1 else 0)
  let sycophantic_count :=
    (if anyMatch SYCOPHANTIC_PATTERNS bot_lower then 1 else 0) +
    ((history.drop (history.length - 5)).filter (turnHits SYCOPHANTIC_PATTERNS)).length
  let violations :=
    (if user_has_delusion && bot_validates then
      [⟨"delusion_reinforcement", "HIGH", "delusion_markers + validation",
        "Bot may be reinforcing delusional thinking"⟩] else []) ++
    (if anyMatch ROLE_VIOLATIONS bot_lower then
      [⟨"role_confusion", "CRITICAL", "therapist_impersonation",
        "Bot claiming professional healthcare role"⟩] else []) ++
    (if anyMatch DUAL_RELATIONSHIP bot_lower then
      [⟨"dual_relationship", "CRITICAL", "boundary_crossing",
        "Bot suggesting inappropriate personal relationship"⟩] else []) ++
    (if anyMatch MEDICAL_ADVICE bot_lower then
      [⟨"medical_advice", "HIGH", "medical_boundary_violation",
        "Bot providing medical or diagnostic advice"⟩] else []) ++
    (if isolation_count ≥ 2 then
      [⟨"isolation_cultivation", "HIGH",
        toString isolation_count ++ " isolation phrases in recent messages",
        "Bot may be isolating user from support network"⟩] else []) ++
    (if sycophantic_count ≥ 2 then
      [⟨"sycophantic_amplification", "MEDIUM",
        toString sycophantic_count ++ " sycophantic patterns",
        "Bot showing excessive flattery patterns"⟩] else [])
  let dependency_markers :=
    if anyMatch DEPENDENCY_MARKERS bot_lower then ["bot_dependency_language"] else []
  { violations_detected := violations.length > 0
    violation_count := violations.length
    violations := violations
    highest_severity := pyMaxSeverity (violations.map (fun v => v.severity))
    dependency_markers := dependency_markers }

/-- The concrete detection history of spec example 4: scores
`[40, 60, 80]`, all inside the 72-hour window, tiers ≤ 2. -/
def exDb : List DetRow := [⟨"u", 10, 40, 1⟩, ⟨"u", 20, 60, 2⟩, ⟨"u", 30, 80, 1⟩]


/-! ## General lemmas about the embedded operations -/

theorem category_base_nonneg (m : ℕ) : 0 ≤ category_base m := by
  unfold category_base
  split
  · exact le_refl 0
  · exact le_min (by positivity) (by norm_num)

theorem category_base_pos (m : ℕ) (hm : m ≠ 0) : 7/10 ≤ category_base m := by
  unfold category_base
  rw [if_neg hm]
  refine le_min ?_ (by norm_num)
  have : (0:ℚ) ≤ ((m - 1 : ℕ) : ℚ) := Nat.cast_nonneg _
  linarith

theorem category_base_mono {m m' : ℕ} (h : m ≤ m') : category_base m ≤ category_base m' := by
  unfold category_base
  by_cases hm : m = 0
  · rw [if_pos hm]
    split
    · exact le_refl 0
    · exact le_min (by positivity) (by norm_num)
  · have hm' : m' ≠ 0 := by omega
    rw [if_neg hm, if_neg hm']
    apply min_le_min _ (le_refl 1)
    have : ((m - 1 : ℕ) : ℚ) ≤ ((m' - 1 : ℕ) : ℚ) := by
      exact_mod_cast Nat.sub_le_sub_right h 1
    nlinarith

theorem adjust_crisis_nonneg (b : ℚ) (f : Features) (hb : 0 ≤ b) :
    0 ≤ adjust_crisis_score b f := by
  unfold adjust_crisis_score
  split
  · exact le_refl 0
  · refine le_min ?_ (by norm_num)
    have h1 : (0:ℚ) ≤ if f.has_first_person then 1/20 else 0 := by split <;> norm_num
    have h2 : (0:ℚ) ≤ if f.has_negative then 1/20 else 0 := by split <;> norm_num
    have h3 : (0:ℚ) ≤ if f.has_urgency then 1/10 else 0 := by split <;> norm_num
    linarith

theorem adjust_grooming_nonneg (b : ℚ) (f : Features) (hb : 0 ≤ b) :
    0 ≤ adjust_grooming_score b f := by
  unfold adjust_grooming_score
  split
  · exact le_refl 0
  · refine le_min ?_ (by norm_num)
    have h1 : (0:ℚ) ≤ if f.question_count > 1 then 1/20 else 0 := by split <;> norm_num
    have h2 : (0:ℚ) ≤ if f.imperative_count > 1 then 1/20 else 0 := by split <;> norm_num
    linarith

theorem adjust_violence_nonneg (b : ℚ) (f : Features) (hb : 0 ≤ b) :
    0 ≤ adjust_violence_score b f := by
  unfold adjust_violence_score
  split
  · exact le_refl 0
  · refine le_min ?_ (by norm_num)
    have h1 : (0:ℚ) ≤ if f.future_count > 0 then 1/20 else 0 := by split <;> norm_num
    have h2 : (0:ℚ) ≤ if f.has_urgency then 1/10 else 0 := by split <;> norm_num
    linarith

theorem adjust_crisis_mono (f : Features) {b b' : ℚ} (hb : 0 ≤ b) (h : b ≤ b') :
    adjust_crisis_score b f ≤ adjust_crisis_score b' f := by
  by_cases h0 : b = 0
  · rw [h0]
    have : adjust_crisis_score 0 f = 0 := by unfold adjust_crisis_score; simp
    rw [this]
    exact adjust_crisis_nonneg b' f (le_trans hb h)
  · have h0' : b' ≠ 0 := by
      intro hx
      apply h0
      have : b ≤ 0 := hx ▸ h
      linarith
    unfold adjust_crisis_score
    rw [if_neg h0, if_neg h0']
    exact min_le_min (by linarith) (le_refl 1)

theorem adjust_grooming_mono (f : Features) {b b' : ℚ} (hb : 0 ≤ b) (h : b ≤ b') :
    adjust_grooming_score b f ≤ adjust_grooming_score b' f := by
  by_cases h0 : b = 0
  · rw [h0]
    have : adjust_grooming_score 0 f = 0 := by unfold adjust_grooming_score; simp
    rw [this]
    exact adjust_grooming_nonneg b' f (le_trans hb h)
  · have h0' : b' ≠ 0 := by
      intro hx
      apply h0
      have : b ≤ 0 := hx ▸ h
      linarith
    unfold adjust_grooming_score
    rw [if_neg h0, if_neg h0']
    exact min_le_min (by linarith) (le_refl 1)

theorem adjust_violence_mono (f : Features) {b b' : ℚ} (hb : 0 ≤ b) (h : b ≤ b') :
    adjust_violence_score b f ≤ adjust_violence_score b' f := by
  by_cases h0 : b = 0
  · rw [h0]
    have : adjust_violence_score 0 f = 0 := by unfold adjust_violence_score; simp
    rw [this]
    exact adjust_violence_nonneg b' f (le_trans hb h)
  · have h0' : b' ≠ 0 := by
      intro hx
      apply h0
      have : b ≤ 0 := hx ▸ h
      linarith
    unfold adjust_violence_score
    rw [if_neg h0, if_neg h0']
    exact min_le_min (by linarith) (le_refl 1)

theorem calc_multipliers_nonneg (msg : String) (ctx : Ctx) (f : Features) :
    ∀ p ∈ calc_multipliers msg ctx f, (0:ℚ) ≤ p.2 := by
  intro p hp
  unfold calc_multipliers at hp
  simp only [List.mem_append] at hp
  rcases hp with (hp | hp) | hp
  · revert hp; split <;> intro hp <;> simp_all <;> norm_num
  · revert hp
    split
    · intro hp; simp_all; norm_num
    · split
      · intro hp; simp_all; norm_num
      · intro hp; simp_all
  · revert hp
    split
    · intro hp; simp_all
    · split
      · intro hp; simp_all; norm_num
      · intro hp; simp_all

theorem foldl_mul_nonneg (l : List (String × ℚ)) (b : ℚ) (hb : 0 ≤ b)
    (hl : ∀ p ∈ l, (0:ℚ) ≤ p.2) : 0 ≤ l.foldl (fun s p => s * p.2) b := by
  induction l generalizing b with
  | nil => exact hb
  | cons h t ih =>
    simp only [List.foldl_cons]
    exact ih _ (mul_nonneg hb (hl h (by simp))) (fun p hp => hl p (by simp [hp]))

theorem foldl_mul_mono (l : List (String × ℚ)) {b b' : ℚ} (hb : 0 ≤ b) (h : b ≤ b')
    (hl : ∀ p ∈ l, (0:ℚ) ≤ p.2) :
    l.foldl (fun s p => s * p.2) b ≤ l.foldl (fun s p => s * p.2) b' := by
  induction l generalizing b b' with
  | nil => exact h
  | cons hd t ih =>
    simp only [List.foldl_cons]
    exact ih (mul_nonneg hb (hl hd (by simp)))
      (mul_le_mul_of_nonneg_right h (hl hd (by simp)))
      (fun p hp => hl p (by simp [hp]))

theorem apply_multipliers_nonneg (b : ℚ) (l : List (String × ℚ)) (hb : 0 ≤ b)
    (hl : ∀ p ∈ l, (0:ℚ) ≤ p.2) : 0 ≤ apply_multipliers b l :=
  le_min (foldl_mul_nonneg l b hb hl) (by norm_num)

theorem apply_multipliers_le_one (b : ℚ) (l : List (String × ℚ)) :
    apply_multipliers b l ≤ 1 :=
  min_le_right _ _

theorem apply_multipliers_mono (l : List (String × ℚ)) {b b' : ℚ} (hb : 0 ≤ b) (h : b ≤ b')
    (hl : ∀ p ∈ l, (0:ℚ) ≤ p.2) : apply_multipliers b l ≤ apply_multipliers b' l :=
  min_le_min (foldl_mul_mono l hb h hl) (le_refl 1)

/-- Confidence returned by `detect` is the clamped multiplied dominant
score in the match case, and `0` in the safe case; either way it lies in
`[0, 1]`. -/
theorem detect_conf_bounds (msg : String) (ctx : Ctx) :
    0 ≤ (detect msg ctx).confidence_score ∧ (detect msg ctx).confidence_score ≤ 1 := by
  unfold detect detect_from_counts
  split
  · simp [safe_result]
  · simp only
    constructor
    · apply apply_multipliers_nonneg _ _ _ (calc_multipliers_nonneg _ _ _)
      have h1 := adjust_crisis_nonneg (category_base (count_matches msg crisis_patterns))
        (extract_features msg) (category_base_nonneg _)
      have h2 := adjust_grooming_nonneg (category_base (count_matches msg grooming_patterns))
        (extract_features msg) (category_base_nonneg _)
      have h3 := adjust_violence_nonneg (category_base (count_matches msg violence_patterns))
        (extract_features msg) (category_base_nonneg _)
      exact le_trans h1 (le_trans (le_max_left _ _) (le_max_left _ _))
    · exact apply_multipliers_le_one _ _

/-- `pyInt` agrees with the floor on nonnegative arguments. -/
theorem pyInt_eq_floor {q : ℚ} (h : 0 ≤ q) : pyInt q = ⌊q⌋ := by
  unfold pyInt
  rw [if_pos h]

/-- The `risk_score` field of `detect` is the floor of 100 times its
`confidence_score` field. -/
theorem detect_risk_eq_floor (msg : String) (ctx : Ctx) :
    (detect msg ctx).risk_score = ⌊(detect msg ctx).confidence_score * 100⌋ := by
  have hb := detect_conf_bounds msg ctx
  revert hb
  unfold detect detect_from_counts
  split
  · intro _
    simp [safe_result]
  · intro hb
    simp only at hb ⊢
    rw [pyInt_eq_floor (by nlinarith [hb.1])]

/-- Field-level evaluation of `detect` in the matched case, given the
stage-1 counts, the features and the final confidence. -/
theorem detect_eval (msg : String) (ctx : Ctx) (cm gm vm : ℕ) (f : Features)
    (hc : count_matches msg crisis_patterns = cm)
    (hg : count_matches msg grooming_patterns = gm)
    (hv : count_matches msg violence_patterns = vm)
    (hne : ¬(cm = 0 ∧ gm = 0 ∧ vm = 0))
    (hf : extract_features msg = f) :
    (detect msg ctx).confidence_score = apply_multipliers
      (max (max (adjust_crisis_score (category_base cm) f)
        (adjust_grooming_score (category_base gm) f))
        (adjust_violence_score (category_base vm) f)) (calc_multipliers msg ctx f) ∧
    (detect msg ctx).risk_score = pyInt ((detect msg ctx).confidence_score * 100) ∧
    (detect msg ctx).risk_tier = (assign_tier (detect msg ctx).risk_score).1 ∧
    (detect msg ctx).response_deadline_hours = (assign_tier (detect msg ctx).risk_score).2.2 ∧
    (detect msg ctx).context_multipliers = calc_multipliers msg ctx f := by
  unfold detect detect_from_counts
  rw [hc, hg, hv, if_neg hne, hf]
  exact ⟨rfl, rfl, rfl, rfl, rfl⟩

/-- `pyRound` sends `[0, 100]` into `[0, 100]`. -/
theorem pyRound_bounds {q : ℚ} (h0 : 0 ≤ q) (h1 : q ≤ 100) :
    0 ≤ pyRound q ∧ pyRound q ≤ 100 := by
  have hfl : (0:ℤ) ≤ ⌊q⌋ := Int.floor_nonneg.mpr h0
  have hfu : ⌊q⌋ ≤ 100 := by
    have : ⌊q⌋ ≤ ⌊(100:ℚ)⌋ := Int.floor_le_floor h1
    simpa using this
  have hle : (⌊q⌋ : ℚ) ≤ q := Int.floor_le q
  unfold pyRound
  split
  · exact ⟨hfl, hfu⟩
  · rename_i hlt
    push_neg at hlt
    split
    · rename_i hgt
      have h99 : ⌊q⌋ ≤ 99 := by
        have h1 : (⌊q⌋ : ℚ) + 1/2 < q := by linarith
        have h2 : (⌊q⌋ : ℚ) < (100 : ℚ) := by linarith
        have h3 : ⌊q⌋ < 100 := by exact_mod_cast h2
        omega
      omega
    · rename_i hngt
      push_neg at hngt
      have heq : q - ⌊q⌋ = 1/2 := le_antisymm hngt hlt
      have h99 : ⌊q⌋ ≤ 99 := by
        have h1 : (⌊q⌋ : ℚ) + 1/2 = q := by linarith
        have h2 : (⌊q⌋ : ℚ) < (100 : ℚ) := by linarith
        have h3 : ⌊q⌋ < 100 := by exact_mod_cast h2
        omega
      split
      · exact ⟨hfl, hfu⟩
      · omega

/-! ## Lemmas about the Python `max(…, key=severity_order, default='NONE')` -/

theorem sevFold_mem (acc : String) (l : List String) :
    l.foldl (fun acc x => if severity_order x > severity_order acc then x else acc) acc = acc ∨
    l.foldl (fun acc x => if severity_order x > severity_order acc then x else acc) acc ∈ l := by
  induction l generalizing acc with
  | nil => exact Or.inl rfl
  | cons h t ih =>
    simp only [List.foldl_cons]
    rcases ih (if severity_order h > severity_order acc then h else acc) with he | he
    · rw [he]
      split
      · exact Or.inr (by simp)
      · exact Or.inl rfl
    · exact Or.inr (by simp [he])

theorem sevFold_ge_acc (acc : String) (l : List String) :
    severity_order acc ≤ severity_order
      (l.foldl (fun acc x => if severity_order x > severity_order acc then x else acc) acc) := by
  induction l generalizing acc with
  | nil => exact le_refl _
  | cons h t ih =>
    simp only [List.foldl_cons]
    refine le_trans ?_ (ih (if severity_order h > severity_order acc then h else acc))
    split
    · omega
    · exact le_refl _

theorem sevFold_ub (acc : String) (l : List String) :
    ∀ x ∈ l, severity_order x ≤ severity_order
      (l.foldl (fun acc x => if severity_order x > severity_order acc then x else acc) acc) := by
  induction l generalizing acc with
  | nil => intro x hx; simp at hx
  | cons h t ih =>
    intro x hx
    simp only [List.foldl_cons]
    rcases List.mem_cons.mp hx with rfl | hx
    · refine le_trans ?_ (sevFold_ge_acc _ t)
      split
      · exact le_refl _
      · omega
    · exact ih _ x hx

theorem pyMaxSeverity_nil : pyMaxSeverity [] = "NONE" := rfl

theorem pyMaxSeverity_mem (l : List String) (h : l ≠ []) : pyMaxSeverity l ∈ l := by
  cases l with
  | nil => exact absurd rfl h
  | cons x t =>
    rcases sevFold_mem x t with he | he
    · simp [pyMaxSeverity, he]
    · simp [pyMaxSeverity, he]

theorem pyMaxSeverity_ub (l : List String) :
    ∀ x ∈ l, severity_order x ≤ severity_order (pyMaxSeverity l) := by
  cases l with
  | nil => intro x hx; simp at hx
  | cons y t =>
    intro x hx
    simp only [pyMaxSeverity]
    rcases List.mem_cons.mp hx with rfl | hx
    · exact sevFold_ge_acc x t
    · exact sevFold_ub y t x hx

/-! ## Claim theorems -/

/-- C1 (counterexample to the claim as stated): the utterance
`"I love sunny days"` matches no pattern in any category, yet `classify`
reports a response deadline of 168 hours, not the claimed 72. -/
theorem C1_counterexample :
    (count_matches "I love sunny days" crisis_patterns = 0 ∧
     count_matches "I love sunny days" grooming_patterns = 0 ∧
     count_matches "I love sunny days" violence_patterns = 0) ∧
    ¬(detect "I love sunny days" {}).response_deadline_hours = 72 := by
  exact ⟨by decide, by decide⟩

/-- C1 (amended): for every utterance in which no crisis, grooming, or
violence pattern matches, `classify` returns the baseline result —
confidence 0, risk score 0, tier `"BASELINE"`, response deadline
168 hours (one week, not the claimed 72), and empty category and
matched-keyword lists. -/
theorem C1_zero_match_baseline (msg : String) (ctx : Ctx)
    (hc : count_matches msg crisis_patterns = 0)
    (hg : count_matches msg grooming_patterns = 0)
    (hv : count_matches msg violence_patterns = 0) :
    detect msg ctx = safe_result ∧
    (detect msg ctx).confidence_score = 0 ∧
    (detect msg ctx).risk_score = 0 ∧
    (detect msg ctx).risk_tier = "BASELINE" ∧
    (detect msg ctx).response_deadline_hours = 168 ∧
    (detect msg ctx).categories = [] ∧
    (detect msg ctx).keywords_matched = [] := by
  have h : detect msg ctx = safe_result := by
    unfold detect detect_from_counts
    rw [hc, hg, hv, if_pos ⟨rfl, rfl, rfl⟩]
  refine ⟨h, ?_, ?_, ?_, ?_, ?_, ?_⟩ <;> rw [h] <;> rfl

/-- C1 witness: the amended theorem applied to `"I love sunny days"`. -/
theorem C1_witness :
    (detect "I love sunny days" {}).risk_score = 0 ∧
    (detect "I love sunny days" {}).response_deadline_hours = 168 := by
  have h := C1_zero_match_baseline "I love sunny days" {} (by decide) (by decide) (by decide)
  exact ⟨h.2.2.1, h.2.2.2.2.1⟩

/-- C2 (counterexample to the claim as stated): on the matching utterance
`"unbearable"` with `time_of_day = "2am"`, the primary detector records a
late-night multiplier of 1.3, not the claimed 1.15. -/
theorem C2_counterexample :
    1 ≤ count_matches "unbearable" crisis_patterns ∧
    (detect "unbearable" {time_of_day := some "2am"}).context_multipliers =
      [("late_night", (13/10 : ℚ))] ∧
    (13/10 : ℚ) ≠ 23/20 := by
  refine ⟨by decide, rfl, by norm_num⟩

/-- C2 (amended): the two constants are the reverse of the claim — on any
matching detection input whose `time_of_day` contains a configured
late-night marker the primary detector applies ×1.3, while ×1.15 is the
constant used when the stratifier itself revalidates time-of-day. -/
theorem C2_late_night_constants (msg : String) (ctx : Ctx)
    (hmatch : ¬(count_matches msg crisis_patterns = 0 ∧
      count_matches msg grooming_patterns = 0 ∧
      count_matches msg violence_patterns = 0))
    (hlate : lateNightMarkers.any
      (fun h => strIn h (strToLower (ctx.time_of_day.getD ""))) = true) :
    ("late_night", (13/10 : ℚ)) ∈ (detect msg ctx).context_multipliers ∧
    ∀ (c : ℚ) (sctx : Ctx) (prev : ℕ),
      ((!(sctx.time_of_day.getD "").toList.isEmpty) &&
        LATE_NIGHT_HOURS.contains (strToLower (sctx.time_of_day.getD ""))) = true →
      ("late_night", (23/20 : ℚ)) ∈ (calculate_risk_score c sctx prev).multiplier_details := by
  constructor
  · have h := (detect_eval msg ctx _ _ _ _ rfl rfl rfl hmatch rfl).2.2.2.2
    rw [h]
    simp [calc_multipliers, hlate]
  · intro c sctx prev hl
    unfold calculate_risk_score
    simp only [hl]
    simp

/-- C2 witness: the amended theorem applied to `"unbearable"` at 2am for
the detector and a 2am context for the stratifier. -/
theorem C2_witness :
    ("late_night", (13/10 : ℚ)) ∈
      (detect "unbearable" {time_of_day := some "2am"}).context_multipliers ∧
    ("late_night", (23/20 : ℚ)) ∈
      (calculate_risk_score (7/10) {time_of_day := some "2am"} 0).multiplier_details := by
  have h := C2_late_night_constants "unbearable" {time_of_day := some "2am"}
    (by decide) (by decide)
  exact ⟨h.1, h.2 (7/10) {time_of_day := some "2am"} 0 (by decide)⟩

/-- C3 (counterexample to the claim as stated): on `"me unbearable"` with
a minor-user context the final confidence is 0.975, whose risk score
would round to 98, but `classify` reports 97 — it truncates
(`int(final_score * 100)`), it does not round. -/
theorem C3_counterexample :
    (detect "me unbearable" {user_age := some 17}).confidence_score = 39/40 ∧
    (detect "me unbearable" {user_age := some 17}).risk_score = 97 ∧
    pyRound ((39/40) * 100) = 98 := by
  have h := detect_eval "me unbearable" {user_age := some 17} 1 0 0
    ⟨1, 0, 0, 0, 0, 0, 2, true, false, false⟩ (by decide) (by decide) (by decide)
    (by simp) (by decide)
  have hb0 : category_base 0 = 0 := by norm_num [category_base]
  have hb1 : category_base 1 = 7/10 := by norm_num [category_base, min_def]
  have hcs : adjust_crisis_score (7/10) ⟨1, 0, 0, 0, 0, 0, 2, true, false, false⟩ = 3/4 := by
    norm_num [adjust_crisis_score, min_def]
  have hgs : adjust_grooming_score 0 ⟨1, 0, 0, 0, 0, 0, 2, true, false, false⟩ = 0 := by
    norm_num [adjust_grooming_score]
  have hvs : adjust_violence_score 0 ⟨1, 0, 0, 0, 0, 0, 2, true, false, false⟩ = 0 := by
    norm_num [adjust_violence_score]
  have hmul : calc_multipliers "me unbearable" {user_age := some 17}
      ⟨1, 0, 0, 0, 0, 0, 2, true, false, false⟩ = [("minor_user", (13/10 : ℚ))] := rfl
  have hmax : max (max (3/4 : ℚ) 0) 0 = 3/4 := by norm_num [max_def]
  have happ : apply_multipliers (3/4 : ℚ) [("minor_user", (13/10 : ℚ))] = 39/40 := by
    norm_num [apply_multipliers, min_def]
  have hconf : (detect "me unbearable" {user_age := some 17}).confidence_score = 39/40 := by
    rw [h.1, hb0, hb1, hcs, hgs, hvs, hmul, hmax, happ]
  have hfl : ⌊(39/40 : ℚ) * 100⌋ = 97 := by
    rw [show (39/40 : ℚ) * 100 = 195/2 by norm_num]
    rw [Int.floor_eq_iff]
    norm_num
  refine ⟨hconf, ?_, ?_⟩
  · rw [h.2.1, hconf, pyInt_eq_floor (by norm_num), hfl]
  · have hq : (39/40 : ℚ) * 100 = 195/2 := by norm_num
    have hf2 : ⌊(195/2 : ℚ)⌋ = 97 := by
      rw [Int.floor_eq_iff]; norm_num
    rw [hq]
    unfold pyRound
    rw [hf2]
    norm_num

/-- C3 (amended): `classify` truncates — its reported risk score is
`⌊confidence * 100⌋` — while `stratify` rounds (Python `round`,
half-to-even): with a multiplier-free context its final score is
`round(confidence * 100)`. -/
theorem C3_rounding :
    (∀ (msg : String) (ctx : Ctx),
      (detect msg ctx).risk_score = ⌊(detect msg ctx).confidence_score * 100⌋) ∧
    (∀ c : ℚ, 0 ≤ c → c ≤ 1 →
      (calculate_risk_score c {} 0).final_score = pyRound (c * 100)) := by
  constructor
  · exact detect_risk_eq_floor
  · intro c h0 h1
    unfold calculate_risk_score
    norm_num
    rw [min_eq_left (by nlinarith)]

/-- C3 witness: the amended theorem applied to `"me unbearable"` with a
minor-user context (classifier part) and to confidence 39/40
(stratifier part). -/
theorem C3_witness :
    (detect "me unbearable" {user_age := some 17}).risk_score =
      ⌊(detect "me unbearable" {user_age := some 17}).confidence_score * 100⌋ ∧
    (calculate_risk_score (39/40) {} 0).final_score = pyRound ((39/40) * 100) := by
  exact ⟨C3_rounding.1 "me unbearable" {user_age := some 17},
    C3_rounding.2 (39/40) (by norm_num) (by norm_num)⟩

/-- C4 (confirmed): `classify` on `"I want to kill myself tonight"` with
`{sessionCountToday: 0}` finds exactly 2 crisis patterns, base crisis
score 0.8, feature adjustments +0.05 (first person) and +0.10 (urgency)
for a crisis score of 0.95, applies no context multipliers, and reports
risk score 95, tier `"CRITICAL"`, deadline 1 hour. -/
theorem C4_end_to_end :
    count_matches "I want to kill myself tonight" crisis_patterns = 2 ∧
    category_base 2 = 4/5 ∧
    (extract_features "I want to kill myself tonight").has_first_person = true ∧
    (extract_features "I want to kill myself tonight").has_urgency = true ∧
    (extract_features "I want to kill myself tonight").has_negative = false ∧
    adjust_crisis_score (category_base 2)
      (extract_features "I want to kill myself tonight") = 19/20 ∧
    (detect "I want to kill myself tonight" {session_count_today := 0}).context_multipliers
      = [] ∧
    (detect "I want to kill myself tonight" {session_count_today := 0}).confidence_score
      = 19/20 ∧
    (detect "I want to kill myself tonight" {session_count_today := 0}).risk_score = 95 ∧
    (detect "I want to kill myself tonight" {session_count_today := 0}).risk_tier
      = "CRITICAL" ∧
    (detect "I want to kill myself tonight" {session_count_today := 0}).response_deadline_hours
      = 1 := by
  have hf : extract_features "I want to kill myself tonight" =
      ⟨2, 0, 1, 1, 0, 0, 6, true, false, true⟩ := by decide
  have h := detect_eval "I want to kill myself tonight" {session_count_today := 0} 2 0 0
    ⟨2, 0, 1, 1, 0, 0, 6, true, false, true⟩ (by decide) (by decide) (by decide)
    (by simp) hf
  have hb0 : category_base 0 = 0 := by norm_num [category_base]
  have hb2 : category_base 2 = 4/5 := by norm_num [category_base, min_def]
  have hcs : adjust_crisis_score (4/5) ⟨2, 0, 1, 1, 0, 0, 6, true, false, true⟩ = 19/20 := by
    norm_num [adjust_crisis_score, min_def]
  have hgs : adjust_grooming_score 0 ⟨2, 0, 1, 1, 0, 0, 6, true, false, true⟩ = 0 := by
    norm_num [adjust_grooming_score]
  have hvs : adjust_violence_score 0 ⟨2, 0, 1, 1, 0, 0, 6, true, false, true⟩ = 0 := by
    norm_num [adjust_violence_score]
  have hmul : calc_multipliers "I want to kill myself tonight" {session_count_today := 0}
      ⟨2, 0, 1, 1, 0, 0, 6, true, false, true⟩ = [] := rfl
  have hmax : max (max (19/20 : ℚ) 0) 0 = 19/20 := by norm_num [max_def]
  have happ : apply_multipliers (19/20 : ℚ) [] = 19/20 := by
    norm_num [apply_multipliers, min_def]
  have hconf : (detect "I want to kill myself tonight"
      {session_count_today := 0}).confidence_score = 19/20 := by
    rw [h.1, hb0, hb2, hcs, hgs, hvs, hmul, hmax, happ]
  have hfl : ⌊(19/20 : ℚ) * 100⌋ = 95 := by
    rw [show (19/20 : ℚ) * 100 = 95 by norm_num]
    rw [Int.floor_eq_iff]
    norm_num
  have hrisk : (detect "I want to kill myself tonight"
      {session_count_today := 0}).risk_score = 95 := by
    rw [h.2.1, hconf, pyInt_eq_floor (by norm_num), hfl]
  have htier : assign_tier 95 = ("CRITICAL", "Immediate intervention required", 1) := by
    norm_num [assign_tier]
  refine ⟨by decide, hb2, by rw [hf], by rw [hf], by rw [hf], by rw [hb2, hf]; exact hcs,
    h.2.2.2.2.trans hmul, hconf, hrisk, ?_, ?_⟩
  · rw [h.2.2.1, hrisk, htier]
  · rw [h.2.2.2.1, hrisk, htier]

/-- C10 (counterexample to the claim as stated): `user_age = -1` is not
strictly between 0 and 18, yet the minor-user ×1.3 multiplier is applied
(Python `if age and age < 18` admits any nonzero age below 18). -/
theorem C10_counterexample :
    ("minor_user", (13/10 : ℚ)) ∈
      calc_multipliers "" {user_age := some (-1)} (extract_features "") ∧
    ¬(0 < (-1 : ℤ)) := by
  constructor
  · have h : calc_multipliers "" {user_age := some (-1)} (extract_features "") =
        [("minor_user", (13/10 : ℚ))] := rfl
    rw [h]
    simp
  · decide

/-- C10 (amended): `classify` applies the minor-user ×1.3 multiplier iff
the context's `user_age` is present, nonzero, and below 18 — `age = 0`
never triggers it, but negative ages do. -/
theorem C10_minor_user_rule (msg : String) (ctx : Ctx) (f : Features) :
    ("minor_user", (13/10 : ℚ)) ∈ calc_multipliers msg ctx f ↔
      (∃ a : ℤ, ctx.user_age = some a ∧ a ≠ 0 ∧ a < 18) := by
  unfold calc_multipliers
  constructor
  · intro h
    rcases List.mem_append.mp h with h | h
    · exfalso
      rcases List.mem_append.mp h with h | h
      · revert h
        split
        · intro h
          simp only [List.mem_singleton, Prod.mk.injEq] at h
          exact absurd h.1 (by decide)
        · intro h; simp at h
      · revert h
        split
        · intro h
          simp only [List.mem_singleton, Prod.mk.injEq] at h
          exact absurd h.1 (by decide)
        · split
          · intro h
            simp only [List.mem_singleton, Prod.mk.injEq] at h
            exact absurd h.1 (by decide)
          · intro h; simp at h
    · revert h
      cases hage : ctx.user_age with
      | none => intro h; simp at h
      | some a =>
        intro h
        by_cases hc : a ≠ 0 ∧ a < 18
        · exact ⟨a, rfl, hc.1, hc.2⟩
        · simp [hc] at h
  · rintro ⟨a, ha, h0, h18⟩
    apply List.mem_append.mpr
    right
    rw [ha]
    simp [h0, h18]

/-- C10 witness: the amended rule applied at `user_age = 5`. -/
theorem C10_witness :
    ("minor_user", (13/10 : ℚ)) ∈
      calc_multipliers "" {user_age := some 5} (extract_features "") := by
  exact (C10_minor_user_rule "" {user_age := some 5} (extract_features "")).mpr
    ⟨5, rfl, by decide, by decide⟩

/-- C5 (confirmed): per category, each pattern counts at most once
(`count_matches` is the number of patterns whose search hits, bounded by
the table size); a category score is 0 iff its match count is 0; with
`m ≥ 1` matches the pre-adjustment score is `min(0.7 + (m-1)*0.1, 1)`;
and the adjusted score adds the feature adjustments and caps at 1 only
afterwards (a single final cap gives the same value). -/
theorem C5_category_scoring (msg : String) (pats : List Regex) (f : Features) (m : ℕ) :
    (count_matches msg pats = (pats.filter (fun p => rsearch p msg)).length ∧
     count_matches msg pats ≤ pats.length) ∧
    (adjust_crisis_score (category_base m) f = 0 ↔ m = 0) ∧
    (adjust_grooming_score (category_base m) f = 0 ↔ m = 0) ∧
    (adjust_violence_score (category_base m) f = 0 ↔ m = 0) ∧
    (1 ≤ m → category_base m = min (7/10 + ((m - 1 : ℕ) : ℚ) * (1/10)) 1) ∧
    (1 ≤ m → adjust_crisis_score (category_base m) f =
      min (7/10 + ((m - 1 : ℕ) : ℚ) * (1/10) +
        ((if f.has_first_person then 1/20 else 0) + (if f.has_negative then 1/20 else 0) +
         (if f.has_urgency then 1/10 else 0))) 1) ∧
    (1 ≤ m → adjust_grooming_score (category_base m) f =
      min (7/10 + ((m - 1 : ℕ) : ℚ) * (1/10) +
        ((if f.question_count > 1 then 1/20 else 0) +
         (if f.imperative_count > 1 then 1/20 else 0))) 1) ∧
    (1 ≤ m → adjust_violence_score (category_base m) f =
      min (7/10 + ((m - 1 : ℕ) : ℚ) * (1/10) +
        ((if f.future_count > 0 then 1/20 else 0) +
         (if f.has_urgency then 1/10 else 0))) 1) := by
  have hcount : count_matches msg pats = (pats.filter (fun p => rsearch p msg)).length := by
    unfold count_matches
    induction pats with
    | nil => rfl
    | cons p t ih =>
      by_cases hp : rsearch p msg
      · simp [hp, ih, Nat.add_comm]
      · simp [hp, ih]
  have hbase_ne : m ≠ 0 → category_base m ≠ 0 := by
    intro hm
    have := category_base_pos m hm
    intro h
    rw [h] at this
    norm_num at this
  have hcap : ∀ b adj : ℚ, 7/10 ≤ b → 0 ≤ adj → min (min b 1 + adj) 1 = min (b + adj) 1 := by
    intro b adj hb hadj
    rcases le_or_lt b 1 with h1 | h1
    · rw [min_eq_left h1]
    · rw [min_eq_right (le_of_lt h1)]
      rw [min_eq_right (by linarith), min_eq_right (by linarith)]
  refine ⟨⟨hcount, ?_⟩, ?_, ?_, ?_, ?_, ?_, ?_, ?_⟩
  · rw [hcount]
    exact List.length_filter_le _ _
  · constructor
    · intro h
      by_contra hm
      apply hbase_ne hm
      unfold adjust_crisis_score at h
      rw [if_neg (hbase_ne hm)] at h
      exfalso
      have h1 : (0:ℚ) ≤ if f.has_first_person then 1/20 else 0 := by split <;> norm_num
      have h2 : (0:ℚ) ≤ if f.has_negative then 1/20 else 0 := by split <;> norm_num
      have h3 : (0:ℚ) ≤ if f.has_urgency then 1/10 else 0 := by split <;> norm_num
      have hb := category_base_pos m hm
      have : (0:ℚ) < min (category_base m
          + (if f.has_first_person then 1/20 else 0)
          + (if f.has_negative then 1/20 else 0)
          + (if f.has_urgency then 1/10 else 0)) 1 :=
        lt_min (by linarith) (by norm_num)
      linarith [h ▸ this]
    · intro hm
      subst hm
      unfold adjust_crisis_score
      rw [show category_base 0 = 0 by norm_num [category_base]]
      simp
  · constructor
    · intro h
      by_contra hm
      unfold adjust_grooming_score at h
      rw [if_neg (hbase_ne hm)] at h
      have h1 : (0:ℚ) ≤ if f.question_count > 1 then 1/20 else 0 := by split <;> norm_num
      have h2 : (0:ℚ) ≤ if f.imperative_count > 1 then 1/20 else 0 := by split <;> norm_num
      have hb := category_base_pos m hm
      have : (0:ℚ) < min (category_base m
          + (if f.question_count > 1 then 1/20 else 0)
          + (if f.imperative_count > 1 then 1/20 else 0)) 1 :=
        lt_min (by linarith) (by norm_num)
      linarith [h ▸ this]
    · intro hm
      subst hm
      unfold adjust_grooming_score
      rw [show category_base 0 = 0 by norm_num [category_base]]
      simp
  · constructor
    · intro h
      by_contra hm
      unfold adjust_violence_score at h
      rw [if_neg (hbase_ne hm)] at h
      have h1 : (0:ℚ) ≤ if f.future_count > 0 then 1/20 else 0 := by split <;> norm_num
      have h2 : (0:ℚ) ≤ if f.has_urgency then 1/10 else 0 := by split <;> norm_num
      have hb := category_base_pos m hm
      have : (0:ℚ) < min (category_base m
          + (if f.future_count > 0 then 1/20 else 0)
          + (if f.has_urgency then 1/10 else 0)) 1 :=
        lt_min (by linarith) (by norm_num)
      linarith [h ▸ this]
    · intro hm
      subst hm
      unfold adjust_violence_score
      rw [show category_base 0 = 0 by norm_num [category_base]]
      simp
  · intro hm
    unfold category_base
    rw [if_neg (by omega)]
  · intro hm
    have hne := hbase_ne (by omega)
    unfold adjust_crisis_score
    rw [if_neg hne]
    unfold category_base
    rw [if_neg (by omega : ¬ m = 0)]
    have h1 : (0:ℚ) ≤ if f.has_first_person then 1/20 else 0 := by split <;> norm_num
    have h2 : (0:ℚ) ≤ if f.has_negative then 1/20 else 0 := by split <;> norm_num
    have h3 : (0:ℚ) ≤ if f.has_urgency then 1/10 else 0 := by split <;> norm_num
    rw [show ∀ a b c d : ℚ, a + b + c + d = a + (b + c + d) by intro a b c d; ring]
    exact hcap _ _ (by
      have : (0:ℚ) ≤ ((m - 1 : ℕ) : ℚ) := Nat.cast_nonneg _
      linarith) (by linarith)
  · intro hm
    have hne := hbase_ne (by omega)
    unfold adjust_grooming_score
    rw [if_neg hne]
    unfold category_base
    rw [if_neg (by omega : ¬ m = 0)]
    have h1 : (0:ℚ) ≤ if f.question_count > 1 then 1/20 else 0 := by split <;> norm_num
    have h2 : (0:ℚ) ≤ if f.imperative_count > 1 then 1/20 else 0 := by split <;> norm_num
    rw [show ∀ a b c : ℚ, a + b + c = a + (b + c) by intro a b c; ring]
    exact hcap _ _ (by
      have : (0:ℚ) ≤ ((m - 1 : ℕ) : ℚ) := Nat.cast_nonneg _
      linarith) (by linarith)
  · intro hm
    have hne := hbase_ne (by omega)
    unfold adjust_violence_score
    rw [if_neg hne]
    unfold category_base
    rw [if_neg (by omega : ¬ m = 0)]
    have h1 : (0:ℚ) ≤ if f.future_count > 0 then 1/20 else 0 := by split <;> norm_num
    have h2 : (0:ℚ) ≤ if f.has_urgency then 1/10 else 0 := by split <;> norm_num
    rw [show ∀ a b c : ℚ, a + b + c = a + (b + c) by intro a b c; ring]
    exact hcap _ _ (by
      have : (0:ℚ) ≤ ((m - 1 : ℕ) : ℚ) := Nat.cast_nonneg _
      linarith) (by linarith)

/-- C5 witness: the scoring law applied at `m = 4` with the features of
`"I want to kill myself tonight"`, and the count law on the crisis
table. -/
theorem C5_witness :
    category_base 4 =
      min (7/10 + ((4 - 1 : ℕ) : ℚ) * (1/10)) 1 ∧
    count_matches "I want to kill myself tonight" crisis_patterns =
      (crisis_patterns.filter
        (fun p => rsearch p "I want to kill myself tonight")).length := by
  have h := C5_category_scoring "I want to kill myself tonight" crisis_patterns
    ⟨2, 0, 1, 1, 0, 0, 6, true, false, true⟩ 4
  exact ⟨h.2.2.2.2.1 (by norm_num), h.1.1⟩

/-- C7 (confirmed): whatever the utterance, context and multiplier
magnitudes, `classify` returns a confidence in `[0, 1]` and a risk score
in `[0, 100]`; `stratify` on a confidence in `[0, 1]` likewise returns a
final score in `[0, 100]`. -/
theorem C7_clamp_invariant (msg : String) (ctx : Ctx) (c : ℚ) (sctx : Ctx) (prev : ℕ)
    (h0 : 0 ≤ c) (h1 : c ≤ 1) :
    (0 ≤ (detect msg ctx).confidence_score ∧ (detect msg ctx).confidence_score ≤ 1) ∧
    (0 ≤ (detect msg ctx).risk_score ∧ (detect msg ctx).risk_score ≤ 100) ∧
    (0 ≤ (calculate_risk_score c sctx prev).final_score ∧
      (calculate_risk_score c sctx prev).final_score ≤ 100) := by
  have hconf := detect_conf_bounds msg ctx
  refine ⟨hconf, ?_, ?_⟩
  · rw [detect_risk_eq_floor msg ctx]
    constructor
    · exact Int.floor_nonneg.mpr (by nlinarith [hconf.1])
    · have : (detect msg ctx).confidence_score * 100 ≤ 100 := by nlinarith [hconf.2]
      have h := Int.floor_le_floor this
      simpa using h
  · have hgen : ∀ (b1 b2 b3 : Bool),
        0 ≤ pyRound (min (c * 100 * (1 * (if b1 then (23/20:ℚ) else 1) *
          (if b2 then (11/10:ℚ) else 1) * (if b3 then (6/5:ℚ) else 1))) 100) ∧
        pyRound (min (c * 100 * (1 * (if b1 then (23/20:ℚ) else 1) *
          (if b2 then (11/10:ℚ) else 1) * (if b3 then (6/5:ℚ) else 1))) 100) ≤ 100 := by
      intro b1 b2 b3
      have a1 : (0:ℚ) ≤ if b1 then (23/20:ℚ) else 1 := by cases b1 <;> norm_num
      have a2 : (0:ℚ) ≤ if b2 then (11/10:ℚ) else 1 := by cases b2 <;> norm_num
      have a3 : (0:ℚ) ≤ if b3 then (6/5:ℚ) else 1 := by cases b3 <;> norm_num
      have hm : (0:ℚ) ≤ 1 * (if b1 then (23/20:ℚ) else 1) *
          (if b2 then (11/10:ℚ) else 1) * (if b3 then (6/5:ℚ) else 1) :=
        mul_nonneg (mul_nonneg (mul_nonneg (by norm_num) a1) a2) a3
      exact pyRound_bounds (le_min (by nlinarith) (by norm_num)) (min_le_right _ _)
    exact hgen _ _ _

/-- C7 witness: the clamp invariant at a concrete matching utterance,
context and stratifier confidence. -/
theorem C7_witness :
    (0 ≤ (detect "unbearable" {time_of_day := some "2am"}).confidence_score ∧
      (detect "unbearable" {time_of_day := some "2am"}).confidence_score ≤ 1) ∧
    (0 ≤ (detect "unbearable" {time_of_day := some "2am"}).risk_score ∧
      (detect "unbearable" {time_of_day := some "2am"}).risk_score ≤ 100) ∧
    (0 ≤ (calculate_risk_score (19/20) {time_of_day := some "2am"} 5).final_score ∧
      (calculate_risk_score (19/20) {time_of_day := some "2am"} 5).final_score ≤ 100) := by
  exact C7_clamp_invariant "unbearable" {time_of_day := some "2am"} (19/20)
    {time_of_day := some "2am"} 5 (by norm_num) (by norm_num)

/-- C8 (confirmed): with the utterance, context and features held fixed,
raising one category's match count by one never decreases that category's
adjusted score, and never decreases the final confidence `classify`
computes from the counts. -/
theorem C8_monotonicity (msg : String) (ctx : Ctx) (cm gm vm : ℕ) :
    adjust_crisis_score (category_base cm) (extract_features msg) ≤
      adjust_crisis_score (category_base (cm + 1)) (extract_features msg) ∧
    adjust_grooming_score (category_base gm) (extract_features msg) ≤
      adjust_grooming_score (category_base (gm + 1)) (extract_features msg) ∧
    adjust_violence_score (category_base vm) (extract_features msg) ≤
      adjust_violence_score (category_base (vm + 1)) (extract_features msg) ∧
    (detect_from_counts msg ctx cm gm vm).confidence_score ≤
      (detect_from_counts msg ctx (cm + 1) gm vm).confidence_score ∧
    (detect_from_counts msg ctx cm gm vm).confidence_score ≤
      (detect_from_counts msg ctx cm (gm + 1) vm).confidence_score ∧
    (detect_from_counts msg ctx cm gm vm).confidence_score ≤
      (detect_from_counts msg ctx cm gm (vm + 1)).confidence_score := by
  set f := extract_features msg with hfdef
  have hcb : ∀ k : ℕ, 0 ≤ category_base k := category_base_nonneg
  have hc := fun (k : ℕ) =>
    adjust_crisis_mono f (hcb k) (category_base_mono (Nat.le_succ k))
  have hg := fun (k : ℕ) =>
    adjust_grooming_mono f (hcb k) (category_base_mono (Nat.le_succ k))
  have hv := fun (k : ℕ) =>
    adjust_violence_mono f (hcb k) (category_base_mono (Nat.le_succ k))
  have hnn : ∀ (a b c : ℕ), 0 ≤ max (max (adjust_crisis_score (category_base a) f)
      (adjust_grooming_score (category_base b) f))
      (adjust_violence_score (category_base c) f) := by
    intro a b c
    have := adjust_crisis_nonneg (category_base a) f (hcb a)
    exact le_trans this (le_trans (le_max_left _ _) (le_max_left _ _))
  have hmain : ∀ (a b c a' b' c' : ℕ),
      adjust_crisis_score (category_base a) f ≤ adjust_crisis_score (category_base a') f →
      adjust_grooming_score (category_base b) f ≤ adjust_grooming_score (category_base b') f →
      adjust_violence_score (category_base c) f ≤ adjust_violence_score (category_base c') f →
      ¬(a = 0 ∧ b = 0 ∧ c = 0) → ¬(a' = 0 ∧ b' = 0 ∧ c' = 0) →
      (detect_from_counts msg ctx a b c).confidence_score ≤
        (detect_from_counts msg ctx a' b' c').confidence_score := by
    intro a b c a' b' c' h1 h2 h3 hne hne'
    unfold detect_from_counts
    rw [if_neg hne, if_neg hne']
    simp only [← hfdef]
    exact apply_multipliers_mono _ (hnn a b c)
      (max_le_max (max_le_max h1 h2) h3) (calc_multipliers_nonneg msg ctx f)
  have hsafe : ∀ (a b c : ℕ),
      (detect_from_counts msg ctx 0 0 0).confidence_score ≤
        (detect_from_counts msg ctx a b c).confidence_score := by
    intro a b c
    have h0 : (detect_from_counts msg ctx 0 0 0).confidence_score = 0 := by
      unfold detect_from_counts
      rw [if_pos ⟨rfl, rfl, rfl⟩]
      rfl
    rw [h0]
    by_cases hne : a = 0 ∧ b = 0 ∧ c = 0
    · rw [hne.1, hne.2.1, hne.2.2, h0]
    · unfold detect_from_counts
      rw [if_neg hne]
      simp only [← hfdef]
      exact apply_multipliers_nonneg _ _ (hnn a b c) (calc_multipliers_nonneg msg ctx f)
  refine ⟨hc cm, hg gm, hv vm, ?_, ?_, ?_⟩
  · by_cases hne : cm = 0 ∧ gm = 0 ∧ vm = 0
    · rw [hne.1, hne.2.1, hne.2.2]
      exact hsafe 1 0 0
    · exact hmain cm gm vm (cm + 1) gm vm (hc cm) (le_refl _) (le_refl _) hne (by omega)
  · by_cases hne : cm = 0 ∧ gm = 0 ∧ vm = 0
    · rw [hne.1, hne.2.1, hne.2.2]
      exact hsafe 0 1 0
    · exact hmain cm gm vm cm (gm + 1) vm (le_refl _) (hg gm) (le_refl _) hne (by omega)
  · by_cases hne : cm = 0 ∧ gm = 0 ∧ vm = 0
    · rw [hne.1, hne.2.1, hne.2.2]
      exact hsafe 0 0 1
    · exact hmain cm gm vm cm gm (vm + 1) (le_refl _) (le_refl _) (hv vm) hne (by omega)

/-- C6 (confirmed): with at least two stored detections in the 72-hour
window at tier ≤ 2, the temporal signal has pattern
`repeat_alerts_72h`; the window is ordered by ascending timestamp and the
trajectory compares the averages of the first `⌊n/2⌋` scores and of the
remainder: more than 10% above → `escalating`, more than 10% below →
`de-escalating`, otherwise `stable`. -/
theorem C6_repeat_alerts_trajectory (db : List DetRow) (user : String) (now : ℤ)
    (h : 2 ≤ (alerts72h db user now).length) :
    (check_temporal_patterns db user now).pattern = "repeat_alerts_72h" ∧
    (alerts72h db user now).Sorted (fun a b => a.timestamp ≤ b.timestamp) ∧
    (check_temporal_patterns db user now).trajectory =
      (let scores := (alerts72h db user now).map (fun a => a.risk_score)
       let n := scores.length
       let firstAvg : ℚ := ((scores.take (n / 2)).sum : ℚ) / ((n / 2 : ℕ) : ℚ)
       let secondAvg : ℚ := ((scores.drop (n / 2)).sum : ℚ) / ((n - n / 2 : ℕ) : ℚ)
       if secondAvg > firstAvg * (11/10) then "escalating"
       else if secondAvg < firstAvg * (9/10) then "de-escalating"
       else "stable") := by
  have hlen : ((alerts72h db user now).map (fun a => a.risk_score)).length =
      (alerts72h db user now).length := List.length_map _ _
  refine ⟨?_, ?_, ?_⟩
  · unfold check_temporal_patterns
    rw [if_pos h]
  · unfold alerts72h
    letI : IsTotal DetRow (fun a b => a.timestamp ≤ b.timestamp) :=
      ⟨fun a b => le_total _ _⟩
    letI : IsTrans DetRow (fun a b => a.timestamp ≤ b.timestamp) :=
      ⟨fun a b c hab hbc => le_trans hab hbc⟩
    exact List.sorted_insertionSort _ _
  · unfold check_temporal_patterns
    rw [if_pos h]
    simp only [calculate_trajectory]
    rw [if_neg (by omega), if_pos (by rw [hlen]; omega)]
    rw [max_eq_left (by rw [hlen]; omega), max_eq_left (by rw [hlen]; omega)]

/-- C6 witness: the theorem applied to the `[40, 60, 80]` history —
first half `[40]`, second half `[60, 80]` with average 70 > 44, so the
trajectory is `escalating`. -/
theorem C6_witness :
    (check_temporal_patterns exDb "u" 40).pattern = "repeat_alerts_72h" ∧
    (check_temporal_patterns exDb "u" 40).trajectory = "escalating" := by
  have h := C6_repeat_alerts_trajectory exDb "u" 40 (by decide)
  refine ⟨h.1, ?_⟩
  rw [h.2.2]
  have hs : (alerts72h exDb "u" 40).map (fun a => a.risk_score) = [40, 60, 80] := by decide
  simp only [hs]
  norm_num

/-- C9 (confirmed): `analyzeBoundaries` reports as `highest_severity`
exactly the maximum severity among its returned violations under the
order CRITICAL > HIGH > MEDIUM > LOW, and `"NONE"` iff the violation list
is empty. -/
theorem C9_severity_ordering (user_msg bot_msg : String) (history : List Turn) :
    ((check_boundary_violations user_msg bot_msg history).highest_severity = "NONE" ↔
      (check_boundary_violations user_msg bot_msg history).violations = []) ∧
    (∀ v ∈ (check_boundary_violations user_msg bot_msg history).violations,
      severity_order v.severity ≤
        severity_order (check_boundary_violations user_msg bot_msg history).highest_severity) ∧
    ((check_boundary_violations user_msg bot_msg history).violations ≠ [] →
      ∃ v ∈ (check_boundary_violations user_msg bot_msg history).violations,
        v.severity = (check_boundary_violations user_msg bot_msg history).highest_severity) := by
  have hH : (check_boundary_violations user_msg bot_msg history).highest_severity =
      pyMaxSeverity ((check_boundary_violations user_msg bot_msg history).violations.map
        (fun v => v.severity)) := rfl
  have hsev : ∀ v ∈ (check_boundary_violations user_msg bot_msg history).violations,
      2 ≤ severity_order v.severity := by
    have mem_ite_single : ∀ {c : Prop} {inst : Decidable c} {x v : BViolation},
        v ∈ (@ite _ c inst [x] []) → v = x := by
      intro c inst x v h
      split at h
      · simpa using h
      · simp at h
    intro v hv
    simp only [check_boundary_violations, List.mem_append] at hv
    rcases hv with ((((hv | hv) | hv) | hv) | hv) | hv <;>
      rw [mem_ite_single hv] <;> simp [severity_order]
  refine ⟨⟨?_, ?_⟩, ?_, ?_⟩
  · intro hN
    by_contra hne
    have hmap : ((check_boundary_violations user_msg bot_msg history).violations.map
        (fun v => v.severity)) ≠ [] := by
      intro hm
      exact hne (List.map_eq_nil_iff.mp hm)
    have hmem := pyMaxSeverity_mem _ hmap
    rw [← hH, hN] at hmem
    rcases List.mem_map.mp hmem with ⟨v, hvV, hveq⟩
    have := hsev v hvV
    rw [hveq] at this
    simp [severity_order] at this
  · intro he
    rw [hH, he]
    rfl
  · intro v hv
    rw [hH]
    exact pyMaxSeverity_ub _ _ (List.mem_map_of_mem _ hv)
  · intro hne
    have hmap : ((check_boundary_violations user_msg bot_msg history).violations.map
        (fun v => v.severity)) ≠ [] := by
      intro hm
      exact hne (List.map_eq_nil_iff.mp hm)
    have hmem := pyMaxSeverity_mem _ hmap
    rw [← hH] at hmem
    rcases List.mem_map.mp hmem with ⟨v, hvV, hveq⟩
    exact ⟨v, hvV, hveq⟩

/-- C9 witness: spec example 3 — a delusion-marker user utterance
answered by a validating reply yields a nonempty violation list and hence
a non-`"NONE"` highest severity. -/
theorem C9_witness :
    (check_boundary_violations "they are watching me and tracking me"
      "I agree, that makes sense" []).violations ≠ [] ∧
    (check_boundary_violations "they are watching me and tracking me"
      "I agree, that makes sense" []).highest_severity ≠ "NONE" := by
  have h := C9_severity_ordering "they are watching me and tracking me"
    "I agree, that makes sense" []
  refine ⟨by decide, fun hn => ?_⟩
  exact absurd (h.1.mp hn) (by decide)
